import Mathlib

/-!
Verification development for the focus-scoped command routing layer of a
desktop task-management client (taskwarrior-gpui).  The definitions below are
shallow embeddings of the Rust source: the chord model
(`src/keymap/chord.rs`), the command and context vocabularies
(`src/keymap/command.rs`, `src/keymap/context.rs`), the layered keymap
(`src/keymap/keymap.rs`), the default bindings (`src/keymap/defaults.rs`),
the focus state machine (`src/keymap/active_context.rs`) and the root
routing (`src/app.rs`, `src/dispatcher.rs`).

Rust's `str::to_lowercase` is modelled by per-character ASCII lowercasing
(`Char.toLower`), which agrees with it on all ASCII input; the key strings
appearing in the keymap subsystem are ASCII.  Rust's `str::len` (UTF-8 byte
count) is modelled by `String.utf8ByteSize`.
-/

namespace TaskwarriorGpui

/-- Model of Rust `str::to_lowercase`, per-character ASCII lowercasing. -/
def rustToLowercase (s : String) : String := ⟨s.data.map Char.toLower⟩

/-- `Key` from `src/keymap/chord.rs`: a printable character or a named key. -/
inductive Key where
  | Char (c : Char)
  | Enter
  | Escape
  | Backspace
  | Delete
  | Tab
  | Space
  | ArrowUp
  | ArrowDown
  | ArrowLeft
  | ArrowRight
  | PageUp
  | PageDown
  | Home
  | End
  | F1
  | F2
  | F3
  | F4
  | F5
  | F6
  | F7
  | F8
  | F9
  | F10
  | F11
  | F12
deriving DecidableEq, Repr

/-- `Key::from_str` from `src/keymap/chord.rs`: lowercase the input, compare
against the named-key aliases in source order, and fall back to
`Key::Char` for single-byte strings (Rust `s.len() == 1` counts UTF-8
bytes).  The Rust `match` on string literals is written as the equivalent
sequential comparison chain. -/
def Key.from_str (s : String) : Option Key :=
  let t := rustToLowercase s
  if t = "enter" ∨ t = "return" then some .Enter
  else if t = "esc" ∨ t = "escape" then some .Escape
  else if t = "backspace" then some .Backspace
  else if t = "delete" ∨ t = "del" then some .Delete
  else if t = "tab" then some .Tab
  else if t = "space" then some .Space
  else if t = "up" ∨ t = "arrowup" then some .ArrowUp
  else if t = "down" ∨ t = "arrowdown" then some .ArrowDown
  else if t = "left" ∨ t = "arrowleft" then some .ArrowLeft
  else if t = "right" ∨ t = "arrowright" then some .ArrowRight
  else if t = "pageup" then some .PageUp
  else if t = "pagedown" then some .PageDown
  else if t = "home" then some .Home
  else if t = "end" then some .End
  else if t = "f1" then some .F1
  else if t = "f2" then some .F2
  else if t = "f3" then some .F3
  else if t = "f4" then some .F4
  else if t = "f5" then some .F5
  else if t = "f6" then some .F6
  else if t = "f7" then some .F7
  else if t = "f8" then some .F8
  else if t = "f9" then some .F9
  else if t = "f10" then some .F10
  else if t = "f11" then some .F11
  else if t = "f12" then some .F12
  else if t.utf8ByteSize = 1 then t.data.head?.map Key.Char
  else none

/-- `impl fmt::Display for Key` from `src/keymap/chord.rs`. -/
def Key.display : Key → String
  | .Char c => String.singleton c
  | .Enter => "Enter"
  | .Escape => "Esc"
  | .Backspace => "Backspace"
  | .Delete => "Del"
  | .Tab => "Tab"
  | .Space => "Space"
  | .ArrowUp => "Up"
  | .ArrowDown => "Down"
  | .ArrowLeft => "Left"
  | .ArrowRight => "Right"
  | .PageUp => "PageUp"
  | .PageDown => "PageDown"
  | .Home => "Home"
  | .End => "End"
  | .F1 => "F1"
  | .F2 => "F2"
  | .F3 => "F3"
  | .F4 => "F4"
  | .F5 => "F5"
  | .F6 => "F6"
  | .F7 => "F7"
  | .F8 => "F8"
  | .F9 => "F9"
  | .F10 => "F10"
  | .F11 => "F11"
  | .F12 => "F12"

/-- `Mods` from `src/keymap/chord.rs`: four independent modifier flags. -/
structure Mods where
  ctrl : Bool
  alt : Bool
  shift : Bool
  platform : Bool
deriving DecidableEq, Repr

/-- `Mods::none()`. -/
def Mods.none : Mods := ⟨false, false, false, false⟩

/-- `Mods::ctrl()` (named `onlyCtrl` here because `ctrl` is the field name). -/
def Mods.onlyCtrl : Mods := ⟨true, false, false, false⟩

/-- `Mods::alt()`. -/
def Mods.onlyAlt : Mods := ⟨false, true, false, false⟩

/-- `Mods::shift()`. -/
def Mods.onlyShift : Mods := ⟨false, false, true, false⟩

/-- `Mods::platform()`. -/
def Mods.onlyPlatform : Mods := ⟨false, false, false, true⟩

/-- `impl fmt::Display for Mods`: push the set modifiers in the fixed order
Cmd, Ctrl, Alt, Shift and join with `+`. -/
def Mods.displayParts (m : Mods) : List String :=
  (if m.platform then ["Cmd"] else []) ++
  (if m.ctrl then ["Ctrl"] else []) ++
  (if m.alt then ["Alt"] else []) ++
  (if m.shift then ["Shift"] else [])

/-- `Mods` display string. -/
def Mods.display (m : Mods) : String := String.intercalate "+" m.displayParts

/-- `KeyChord` from `src/keymap/chord.rs`. -/
structure KeyChord where
  key : Key
  mods : Mods
deriving DecidableEq, Repr

/-- `KeyChord::new`. -/
def KeyChord.new (key : Key) (mods : Mods) : KeyChord := ⟨key, mods⟩

/-- `KeyChord::key_from_gpui` from `src/keymap/chord.rs`: like
`Key::from_str` but with the platform spelling `" "` accepted for Space and
an extra fallback on the un-normalized string. -/
def KeyChord.key_from_gpui (key_str : String) : Option Key :=
  let t := rustToLowercase key_str
  if t = "enter" ∨ t = "return" then some .Enter
  else if t = "escape" ∨ t = "esc" then some .Escape
  else if t = "backspace" then some .Backspace
  else if t = "delete" ∨ t = "del" then some .Delete
  else if t = "tab" then some .Tab
  else if t = " " ∨ t = "space" then some .Space
  else if t = "arrowup" ∨ t = "up" then some .ArrowUp
  else if t = "arrowdown" ∨ t = "down" then some .ArrowDown
  else if t = "arrowleft" ∨ t = "left" then some .ArrowLeft
  else if t = "arrowright" ∨ t = "right" then some .ArrowRight
  else if t = "pageup" then some .PageUp
  else if t = "pagedown" then some .PageDown
  else if t = "home" then some .Home
  else if t = "end" then some .End
  else if t = "f1" then some .F1
  else if t = "f2" then some .F2
  else if t = "f3" then some .F3
  else if t = "f4" then some .F4
  else if t = "f5" then some .F5
  else if t = "f6" then some .F6
  else if t = "f7" then some .F7
  else if t = "f8" then some .F8
  else if t = "f9" then some .F9
  else if t = "f10" then some .F10
  else if t = "f11" then some .F11
  else if t = "f12" then some .F12
  else if t.utf8ByteSize = 1 then t.data.head?.map Key.Char
  else if key_str.utf8ByteSize = 1 then key_str.data.head?.map Key.Char
  else none

/-- Projection of `gpui::KeyDownEvent`: the keystroke string and the four
modifier booleans the router reads. -/
structure KeyEvent where
  key : String
  ctrl : Bool
  alt : Bool
  shift : Bool
  platform : Bool
deriving DecidableEq, Repr

/-- `KeyChord::from_gpui` from `src/keymap/chord.rs`. -/
def KeyChord.from_gpui (event : KeyEvent) : Option KeyChord :=
  (KeyChord.key_from_gpui event.key).map fun key =>
    ⟨key, ⟨event.ctrl, event.alt, event.shift, event.platform⟩⟩

/-- Model of Rust `str::split('+')` at the character-list level. -/
def splitOnChar (sep : Char) : List Char → List (List Char)
  | [] => [[]]
  | c :: cs =>
    match splitOnChar sep cs with
    | [] => [[]]
    | h :: t => if c = sep then [] :: h :: t else (c :: h) :: t

/-- The modifier-token loop of `KeyChord::parse`: every token must be a
recognized modifier name (case-insensitively) or the whole parse fails. -/
def parseModsLoop : List String → Mods → Option Mods
  | [], m => some m
  | p :: ps, m =>
    let q := rustToLowercase p
    if q = "ctrl" then parseModsLoop ps { m with ctrl := true }
    else if q = "alt" then parseModsLoop ps { m with alt := true }
    else if q = "shift" then parseModsLoop ps { m with shift := true }
    else if q = "cmd" ∨ q = "super" ∨ q = "platform" then
      parseModsLoop ps { m with platform := true }
    else none

/-- `KeyChord::parse` from `src/keymap/chord.rs`: split on `+`, read all
tokens but the last as modifiers, parse the last as the key. -/
def KeyChord.parse (s : String) : Option KeyChord :=
  let parts : List String := (splitOnChar '+' s.data).map fun l => ⟨l⟩
  if parts.isEmpty then none
  else
    match parts.getLast? with
    | Option.none => none
    | some key_str =>
      match parseModsLoop parts.dropLast Mods.none with
      | Option.none => none
      | some mods =>
        match Key.from_str key_str with
        | Option.none => none
        | some key => some ⟨key, mods⟩

/-- `impl fmt::Display for KeyChord`: `Mods+Key` when any modifier is set,
bare `Key` otherwise. -/
def KeyChord.display (c : KeyChord) : String :=
  if c.mods.ctrl || c.mods.alt || c.mods.shift || c.mods.platform then
    c.mods.display ++ "+" ++ c.key.display
  else
    c.key.display

/-- `Command` from `src/keymap/command.rs`.  The two modal scroll variants
are not present in the stale copy of `command.rs` under `src/`, although
`src/keymap/defaults.rs` and `src/dispatcher.rs` both use them; they are
modelled from the spec (modal actions: close, save, scroll up/down). -/
inductive Command where
  | SelectNextRow
  | SelectPrevRow
  | SelectFirstRow
  | SelectLastRow
  | NextPage
  | PrevPage
  | ClearSelection
  | OpenSelectedTask
  | Sync
  | FocusSearch
  | FocusTable
  | FocusTableHeaders
  | FocusSidebar
  | FocusSidebarProjects
  | FocusSidebarTags
  | BlurInput
  | CloseModal
  | SaveModal
  | ModalScrollUp
  | ModalScrollDown
  | ApplySearch
  | ClearFilters
  | ClearAllFilters
  | ClearProjectFilter
  | ClearTagFilter
  | ClearSearchAndDropdowns
  | FocusFilterNext
  | FocusFilterPrev
  | ToggleDropdown
  | SelectNextOption
  | SelectPrevOption
  | ExpandProject
  | CollapseProject
  | HeaderMoveNext
  | HeaderMovePrev
  | HeaderCycleSortOrder
deriving DecidableEq, Repr

/-- `Command::as_str` from `src/keymap/command.rs`.  Modelled from the spec
for the two modal scroll variants missing from the stale `command.rs`
(their identifiers follow the uniform variant-name scheme used by every
other arm and required by the round-trip property). -/
def Command.as_str : Command → String
  | .SelectNextRow => "SelectNextRow"
  | .SelectPrevRow => "SelectPrevRow"
  | .SelectFirstRow => "SelectFirstRow"
  | .SelectLastRow => "SelectLastRow"
  | .NextPage => "NextPage"
  | .PrevPage => "PrevPage"
  | .ClearSelection => "ClearSelection"
  | .OpenSelectedTask => "OpenSelectedTask"
  | .Sync => "Sync"
  | .FocusSearch => "FocusSearch"
  | .FocusTable => "FocusTable"
  | .FocusTableHeaders => "FocusTableHeaders"
  | .FocusSidebar => "FocusSidebar"
  | .FocusSidebarProjects => "FocusSidebarProjects"
  | .FocusSidebarTags => "FocusSidebarTags"
  | .BlurInput => "BlurInput"
  | .CloseModal => "CloseModal"
  | .SaveModal => "SaveModal"
  | .ModalScrollUp => "ModalScrollUp"
  | .ModalScrollDown => "ModalScrollDown"
  | .ApplySearch => "ApplySearch"
  | .ClearFilters => "ClearFilters"
  | .ClearAllFilters => "ClearAllFilters"
  | .ClearProjectFilter => "ClearProjectFilter"
  | .ClearTagFilter => "ClearTagFilter"
  | .ClearSearchAndDropdowns => "ClearSearchAndDropdowns"
  | .FocusFilterNext => "FocusFilterNext"
  | .FocusFilterPrev => "FocusFilterPrev"
  | .ToggleDropdown => "ToggleDropdown"
  | .SelectNextOption => "SelectNextOption"
  | .SelectPrevOption => "SelectPrevOption"
  | .ExpandProject => "ExpandProject"
  | .CollapseProject => "CollapseProject"
  | .HeaderMoveNext => "HeaderMoveNext"
  | .HeaderMovePrev => "HeaderMovePrev"
  | .HeaderCycleSortOrder => "HeaderCycleSortOrder"

/-- `Command::from_str` from `src/keymap/command.rs` (same modelling note as
`Command.as_str` for the two modal scroll variants). -/
def Command.from_str (s : String) : Option Command :=
  if s = "SelectNextRow" then some .SelectNextRow
  else if s = "SelectPrevRow" then some .SelectPrevRow
  else if s = "SelectFirstRow" then some .SelectFirstRow
  else if s = "SelectLastRow" then some .SelectLastRow
  else if s = "NextPage" then some .NextPage
  else if s = "PrevPage" then some .PrevPage
  else if s = "ClearSelection" then some .ClearSelection
  else if s = "OpenSelectedTask" then some .OpenSelectedTask
  else if s = "Sync" then some .Sync
  else if s = "FocusSearch" then some .FocusSearch
  else if s = "FocusTable" then some .FocusTable
  else if s = "FocusTableHeaders" then some .FocusTableHeaders
  else if s = "FocusSidebar" then some .FocusSidebar
  else if s = "FocusSidebarProjects" then some .FocusSidebarProjects
  else if s = "FocusSidebarTags" then some .FocusSidebarTags
  else if s = "BlurInput" then some .BlurInput
  else if s = "CloseModal" then some .CloseModal
  else if s = "SaveModal" then some .SaveModal
  else if s = "ModalScrollUp" then some .ModalScrollUp
  else if s = "ModalScrollDown" then some .ModalScrollDown
  else if s = "ApplySearch" then some .ApplySearch
  else if s = "ClearFilters" then some .ClearFilters
  else if s = "ClearAllFilters" then some .ClearAllFilters
  else if s = "ClearProjectFilter" then some .ClearProjectFilter
  else if s = "ClearTagFilter" then some .ClearTagFilter
  else if s = "ClearSearchAndDropdowns" then some .ClearSearchAndDropdowns
  else if s = "FocusFilterNext" then some .FocusFilterNext
  else if s = "FocusFilterPrev" then some .FocusFilterPrev
  else if s = "ToggleDropdown" then some .ToggleDropdown
  else if s = "SelectNextOption" then some .SelectNextOption
  else if s = "SelectPrevOption" then some .SelectPrevOption
  else if s = "ExpandProject" then some .ExpandProject
  else if s = "CollapseProject" then some .CollapseProject
  else if s = "HeaderMoveNext" then some .HeaderMoveNext
  else if s = "HeaderMovePrev" then some .HeaderMovePrev
  else if s = "HeaderCycleSortOrder" then some .HeaderCycleSortOrder
  else none

/-- `ContextId` from `src/keymap/context.rs`. -/
inductive ContextId where
  | Global
  | Table
  | TableHeaders
  | SidebarProjects
  | SidebarTags
  | Modal
  | FilterBar
  | TextInput
deriving DecidableEq, Repr

/-- `FocusTarget` from `src/keymap/active_context.rs`. -/
inductive FocusTarget where
  | App
  | Table
  | TableHeaders
  | SidebarProjects
  | SidebarTags
deriving DecidableEq, Repr

/-- `FocusTarget::to_context`. -/
def FocusTarget.to_context : FocusTarget → ContextId
  | .App => .Global
  | .Table => .Table
  | .TableHeaders => .TableHeaders
  | .SidebarProjects => .SidebarProjects
  | .SidebarTags => .SidebarTags

/-- `FocusTarget::is_sidebar`. -/
def FocusTarget.is_sidebar : FocusTarget → Bool
  | .SidebarProjects => true
  | .SidebarTags => true
  | _ => false

/-- One binding of a keymap layer: a `(context, chord) → command` rule. -/
structure Binding where
  context : ContextId
  chord : KeyChord
  command : Command
deriving DecidableEq, Repr

/-- `KeymapLayer` from `src/keymap/keymap.rs`.  The source stores a
`HashMap<ContextId, HashMap<KeyChord, Command>>`; it is modelled
extensionally as the list of bindings with the most recent insertion first,
so that lookup (`find?`) returns the value of the latest `bind` for an
exact `(context, chord)` pair — the insert-overwrites semantics of the
nested hash maps. -/
structure KeymapLayer where
  bindings : List Binding
deriving DecidableEq, Repr

/-- `KeymapLayer::new`. -/
def KeymapLayer.new : KeymapLayer := ⟨[]⟩

/-- `KeymapLayer::bind`: insert/overwrite the binding for the exact
`(context, chord)` pair (last bind wins within a layer). -/
def KeymapLayer.bind (l : KeymapLayer) (context : ContextId) (chord : KeyChord)
    (command : Command) : KeymapLayer :=
  ⟨⟨context, chord, command⟩ :: l.bindings⟩

/-- `KeymapLayer::resolve`: exact lookup, no fallback. -/
def KeymapLayer.resolve (l : KeymapLayer) (context : ContextId) (chord : KeyChord) :
    Option Command :=
  (l.bindings.find? fun b => decide (b.context = context ∧ b.chord = chord)).map
    (fun b => b.command)

/-- `KeymapStack` from `src/keymap/keymap.rs`: a `Vec` of layers, later
pushes at the end of the list. -/
structure KeymapStack where
  layers : List KeymapLayer
deriving DecidableEq, Repr

/-- `KeymapStack::new`. -/
def KeymapStack.new : KeymapStack := ⟨[]⟩

/-- `KeymapStack::push_layer` (`Vec::push`). -/
def KeymapStack.push_layer (s : KeymapStack) (layer : KeymapLayer) : KeymapStack :=
  ⟨s.layers ++ [layer]⟩

/-- `KeymapStack::pop_layer` (`Vec::pop`): returns the removed top layer and
the remaining stack. -/
def KeymapStack.pop_layer (s : KeymapStack) : Option KeymapLayer × KeymapStack :=
  match s.layers.getLast? with
  | Option.none => (Option.none, s)
  | some l => (some l, ⟨s.layers.dropLast⟩)

/-- `KeymapStack::resolve`: walk the layers from most recently pushed to
least (`iter().rev()`) looking for the exact `(context, chord)` pair; if
nothing is found and the context is not `Global`, repeat the walk for
`(Global, chord)`. -/
def KeymapStack.resolve (s : KeymapStack) (context : ContextId) (chord : KeyChord) :
    Option Command :=
  match s.layers.reverse.findSome? (fun l => l.resolve context chord) with
  | some cmd => some cmd
  | Option.none =>
    if context ≠ ContextId.Global then
      s.layers.reverse.findSome? (fun l => l.resolve ContextId.Global chord)
    else
      Option.none

/-- `build_default_keymap` from `src/keymap/defaults.rs`: the single static
default layer, with every binding in source order. -/
def build_default_keymap : KeymapLayer :=
  KeymapLayer.new
    |>.bind .Global (KeyChord.new (.Char 'r') Mods.onlyCtrl) .Sync
    |>.bind .Global (KeyChord.new (.Char 'f') Mods.onlyCtrl) .FocusSearch
    |>.bind .Global (KeyChord.new .Escape Mods.none) .CloseModal
    |>.bind .Global (KeyChord.new .Tab Mods.none) .FocusTable
    |>.bind .Global (KeyChord.new .Tab Mods.onlyShift) .FocusSidebar
    |>.bind .Global (KeyChord.new (.Char 'c') Mods.onlyCtrl) .ClearAllFilters
    |>.bind .Global (KeyChord.new (.Char 'p') Mods.onlyCtrl) .ClearProjectFilter
    |>.bind .Global (KeyChord.new (.Char 't') Mods.onlyCtrl) .ClearTagFilter
    |>.bind .Global (KeyChord.new (.Char 'x') Mods.onlyCtrl) .ClearSearchAndDropdowns
    |>.bind .Table (KeyChord.new (.Char 'h') Mods.onlyCtrl) .FocusSidebarProjects
    |>.bind .Table (KeyChord.new (.Char 'k') Mods.onlyCtrl) .FocusTableHeaders
    |>.bind .Table (KeyChord.new (.Char 'j') Mods.none) .SelectNextRow
    |>.bind .Table (KeyChord.new (.Char 'k') Mods.none) .SelectPrevRow
    |>.bind .Table (KeyChord.new .ArrowDown Mods.none) .SelectNextRow
    |>.bind .Table (KeyChord.new .ArrowUp Mods.none) .SelectPrevRow
    |>.bind .Table (KeyChord.new (.Char 'g') Mods.none) .SelectFirstRow
    |>.bind .Table (KeyChord.new (.Char 'g') Mods.onlyShift) .SelectLastRow
    |>.bind .Table (KeyChord.new .Home Mods.none) .SelectFirstRow
    |>.bind .Table (KeyChord.new .End Mods.none) .SelectLastRow
    |>.bind .Table (KeyChord.new .PageDown Mods.none) .NextPage
    |>.bind .Table (KeyChord.new .PageUp Mods.none) .PrevPage
    |>.bind .Table (KeyChord.new (.Char 'l') Mods.none) .NextPage
    |>.bind .Table (KeyChord.new (.Char 'h') Mods.none) .PrevPage
    |>.bind .Table (KeyChord.new .Escape Mods.none) .ClearSelection
    |>.bind .Table (KeyChord.new .Enter Mods.none) .OpenSelectedTask
    |>.bind .Table (KeyChord.new .ArrowLeft Mods.none) .CollapseProject
    |>.bind .Table (KeyChord.new .ArrowRight Mods.none) .ExpandProject
    |>.bind .TableHeaders (KeyChord.new (.Char 'h') Mods.none) .HeaderMovePrev
    |>.bind .TableHeaders (KeyChord.new (.Char 'l') Mods.none) .HeaderMoveNext
    |>.bind .TableHeaders (KeyChord.new .ArrowLeft Mods.none) .HeaderMovePrev
    |>.bind .TableHeaders (KeyChord.new .ArrowRight Mods.none) .HeaderMoveNext
    |>.bind .TableHeaders (KeyChord.new (.Char 'j') Mods.none) .HeaderCycleSortOrder
    |>.bind .TableHeaders (KeyChord.new (.Char 'k') Mods.none) .HeaderCycleSortOrder
    |>.bind .TableHeaders (KeyChord.new .Enter Mods.none) .HeaderCycleSortOrder
    |>.bind .TableHeaders (KeyChord.new .Space Mods.none) .HeaderCycleSortOrder
    |>.bind .TableHeaders (KeyChord.new (.Char 'j') Mods.onlyCtrl) .FocusTable
    |>.bind .TableHeaders (KeyChord.new (.Char 'k') Mods.onlyCtrl) .FocusSearch
    |>.bind .SidebarProjects (KeyChord.new (.Char 'l') Mods.onlyCtrl) .FocusTable
    |>.bind .SidebarProjects (KeyChord.new (.Char 'j') Mods.onlyCtrl) .FocusSidebarTags
    |>.bind .SidebarProjects (KeyChord.new (.Char 'j') Mods.none) .SelectNextRow
    |>.bind .SidebarProjects (KeyChord.new (.Char 'k') Mods.none) .SelectPrevRow
    |>.bind .SidebarProjects (KeyChord.new .ArrowDown Mods.none) .SelectNextRow
    |>.bind .SidebarProjects (KeyChord.new .ArrowUp Mods.none) .SelectPrevRow
    |>.bind .SidebarProjects (KeyChord.new (.Char 'g') Mods.none) .SelectFirstRow
    |>.bind .SidebarProjects (KeyChord.new (.Char 'g') Mods.onlyShift) .SelectLastRow
    |>.bind .SidebarProjects (KeyChord.new (.Char 'h') Mods.none) .CollapseProject
    |>.bind .SidebarProjects (KeyChord.new (.Char 'l') Mods.none) .ExpandProject
    |>.bind .SidebarProjects (KeyChord.new .ArrowLeft Mods.none) .CollapseProject
    |>.bind .SidebarProjects (KeyChord.new .ArrowRight Mods.none) .ExpandProject
    |>.bind .SidebarProjects (KeyChord.new .Enter Mods.none) .OpenSelectedTask
    |>.bind .SidebarProjects (KeyChord.new .Space Mods.none) .OpenSelectedTask
    |>.bind .SidebarTags (KeyChord.new (.Char 'l') Mods.onlyCtrl) .FocusTable
    |>.bind .SidebarTags (KeyChord.new (.Char 'k') Mods.onlyCtrl) .FocusSidebarProjects
    |>.bind .SidebarTags (KeyChord.new (.Char 'j') Mods.none) .SelectNextRow
    |>.bind .SidebarTags (KeyChord.new (.Char 'k') Mods.none) .SelectPrevRow
    |>.bind .SidebarTags (KeyChord.new .ArrowDown Mods.none) .SelectNextRow
    |>.bind .SidebarTags (KeyChord.new .ArrowUp Mods.none) .SelectPrevRow
    |>.bind .SidebarTags (KeyChord.new (.Char 'g') Mods.none) .SelectFirstRow
    |>.bind .SidebarTags (KeyChord.new (.Char 'g') Mods.onlyShift) .SelectLastRow
    |>.bind .SidebarTags (KeyChord.new .Enter Mods.none) .OpenSelectedTask
    |>.bind .SidebarTags (KeyChord.new .Space Mods.none) .OpenSelectedTask
    |>.bind .TextInput (KeyChord.new .Escape Mods.none) .BlurInput
    |>.bind .TextInput (KeyChord.new .Enter Mods.none) .ApplySearch
    |>.bind .TextInput (KeyChord.new (.Char 'l') Mods.onlyCtrl) .FocusFilterNext
    |>.bind .TextInput (KeyChord.new (.Char 'h') Mods.onlyCtrl) .FocusFilterPrev
    |>.bind .TextInput (KeyChord.new (.Char 'j') Mods.onlyCtrl) .FocusTableHeaders
    |>.bind .FilterBar (KeyChord.new .Enter Mods.none) .ToggleDropdown
    |>.bind .FilterBar (KeyChord.new .Space Mods.none) .ToggleDropdown
    |>.bind .FilterBar (KeyChord.new (.Char 'j') Mods.none) .SelectNextOption
    |>.bind .FilterBar (KeyChord.new (.Char 'k') Mods.none) .SelectPrevOption
    |>.bind .FilterBar (KeyChord.new .ArrowDown Mods.none) .SelectNextOption
    |>.bind .FilterBar (KeyChord.new .ArrowUp Mods.none) .SelectPrevOption
    |>.bind .FilterBar (KeyChord.new (.Char 'l') Mods.onlyCtrl) .FocusFilterNext
    |>.bind .FilterBar (KeyChord.new (.Char 'h') Mods.onlyCtrl) .FocusFilterPrev
    |>.bind .FilterBar (KeyChord.new (.Char 'j') Mods.onlyCtrl) .FocusTableHeaders
    |>.bind .FilterBar (KeyChord.new .Escape Mods.none) .BlurInput
    |>.bind .Modal (KeyChord.new .Escape Mods.none) .CloseModal
    |>.bind .Modal (KeyChord.new (.Char 'j') Mods.none) .ModalScrollDown
    |>.bind .Modal (KeyChord.new (.Char 'k') Mods.none) .ModalScrollUp
    |>.bind .Modal (KeyChord.new .ArrowDown Mods.none) .ModalScrollDown
    |>.bind .Modal (KeyChord.new .ArrowUp Mods.none) .ModalScrollUp
    |>.bind .Modal (KeyChord.new .Enter Mods.onlyCtrl) .SaveModal

/-- The keymap stack the application builds at startup (`src/app.rs`): a
fresh stack with the default layer pushed. -/
def defaultKeymapStack : KeymapStack :=
  KeymapStack.new.push_layer build_default_keymap

/-- `FilterBarFocus` from `src/view/task_table.rs`: the table's internal
sub-focus. -/
inductive FilterBarFocus where
  | SearchInput
  | StatusDropdown
  | PriorityDropdown
  | DueDropdown
  | None
deriving DecidableEq, Repr

/-- `SidebarSection` from `src/view/sidebar.rs`. -/
inductive SidebarSection where
  | Projects
  | Tags
deriving DecidableEq, Repr

/-- `TaskTable::get_active_filter_context` from `src/view/task_table.rs`:
the context implied by the table's sub-focus, if any. -/
def get_active_filter_context : FilterBarFocus → Option ContextId
  | .SearchInput => some ContextId.TextInput
  | .StatusDropdown => some ContextId.FilterBar
  | .PriorityDropdown => some ContextId.FilterBar
  | .DueDropdown => some ContextId.FilterBar
  | .None => Option.none

/-- The operations the routing layer invokes on its collaborators.  The
spec (§1, §6) treats component internals — row selection arithmetic,
dropdown state, the task store, the modal widget — as external
collaborators outside this subsystem, so they are modelled as opaque state
transformers over abstract component states `τ` (task table), `σ`
(sidebar) and `ρ` (root collaborators: filter state, task service, task
detail modal).  Field names follow the methods called by `src/app.rs`,
`src/dispatcher.rs`, `src/view/task_table.rs` and `src/view/sidebar.rs`.
`modal_is_open` is modelled from the spec (§4.3): whether the task detail
modal is currently open. -/
structure Ops (τ σ ρ : Type) where
  select_next_row : τ → τ
  select_previous_row : τ → τ
  select_first_row : τ → τ
  select_last_row : τ → τ
  go_next_page : τ → τ
  go_previous_page : τ → τ
  clear_selection : τ → τ
  toggle_focused_dropdown : τ → τ
  select_next_dropdown_option : τ → τ
  select_prev_dropdown_option : τ → τ
  blur_filter_bar : τ → τ
  clear_search_input : τ → τ
  reset_dropdowns : τ → τ
  header_move_next : τ → τ
  header_move_prev : τ → τ
  header_cycle_sort_order : τ → τ
  blur_search_input : τ → τ
  focus_search_input : τ → τ
  focus_table_headers : τ → τ
  blur_table_headers : τ → τ
  set_filter_bar_focus : FilterBarFocus → τ → τ
  get_filter_bar_focus : τ → FilterBarFocus
  focus_filter_next : τ → τ
  focus_filter_prev : τ → τ
  sidebar_select_next : σ → σ
  sidebar_select_prev : σ → σ
  sidebar_select_first : σ → σ
  sidebar_select_last : σ → σ
  sidebar_activate_selected : σ → σ
  sidebar_expand_selected : σ → σ
  sidebar_collapse_selected : σ → σ
  sidebar_set_section : SidebarSection → σ → σ
  handle_sync : ρ → ρ
  filter_clear : ρ → ρ
  filter_clear_project : ρ → ρ
  filter_clear_tags : ρ → ρ
  filter_clear_search_and_dropdowns : ρ → ρ
  open_selected_task : ρ → ρ
  close_task_detail : ρ → ρ
  scroll_task_detail : Int → ρ → ρ
  modal_is_open : ρ → Bool

/-- The root-level application state the router reads and writes:
`App::focus_target`, `App::keymap` and the component states
(`src/app.rs`). -/
structure AppState (τ σ ρ : Type) where
  focus_target : FocusTarget
  keymap : KeymapStack
  table : τ
  sidebar : σ
  root : ρ

/-- A call made through the command-dispatch protocol to a focus-owning
component (observable routing decision of the root dispatch). -/
inductive DispatchCall where
  | table (c : Command)
  | sidebar (c : Command)
deriving DecidableEq, Repr

variable {τ σ ρ : Type}

/-- `impl CommandDispatcher for TaskTable` from `src/view/task_table.rs`:
which commands the table consumes, and the mutator each one invokes. -/
def TaskTable.dispatch (ops : Ops τ σ ρ) (command : Command) (t : τ) : Bool × τ :=
  match command with
  | .SelectNextRow => (true, ops.select_next_row t)
  | .SelectPrevRow => (true, ops.select_previous_row t)
  | .SelectFirstRow => (true, ops.select_first_row t)
  | .SelectLastRow => (true, ops.select_last_row t)
  | .NextPage => (true, ops.go_next_page t)
  | .PrevPage => (true, ops.go_previous_page t)
  | .ClearSelection => (true, ops.clear_selection t)
  | .FocusFilterNext => (false, t)
  | .FocusFilterPrev => (false, t)
  | .ToggleDropdown => (true, ops.toggle_focused_dropdown t)
  | .SelectNextOption => (true, ops.select_next_dropdown_option t)
  | .SelectPrevOption => (true, ops.select_prev_dropdown_option t)
  | .BlurInput => (true, ops.blur_filter_bar t)
  | .ExpandProject => (false, t)
  | .CollapseProject => (false, t)
  | _ => (false, t)

/-- `impl CommandDispatcher for Sidebar` from `src/view/sidebar.rs`. -/
def Sidebar.dispatch (ops : Ops τ σ ρ) (command : Command) (sb : σ) : Bool × σ :=
  match command with
  | .SelectNextRow => (true, ops.sidebar_select_next sb)
  | .SelectPrevRow => (true, ops.sidebar_select_prev sb)
  | .SelectFirstRow => (true, ops.sidebar_select_first sb)
  | .SelectLastRow => (true, ops.sidebar_select_last sb)
  | .OpenSelectedTask => (true, ops.sidebar_activate_selected sb)
  | .ExpandProject => (true, ops.sidebar_expand_selected sb)
  | .CollapseProject => (true, ops.sidebar_collapse_selected sb)
  | _ => (false, sb)

/-- `impl CommandDispatcher for App` from `src/src/app.rs` (lines 124-292):
the root routing table.  Returns the consumed flag, the next state and the
list of dispatch-protocol calls made to focus-owning components. -/
def AppRs.dispatch (ops : Ops τ σ ρ) (command : Command) (st : AppState τ σ ρ) :
    Bool × AppState τ σ ρ × List DispatchCall :=
  match command with
  | .Sync => (true, { st with root := ops.handle_sync st.root }, [])
  | .FocusSearch => (false, st, [])
  | .FocusTable =>
    match st.focus_target with
    | .Table =>
      (true, { st with
               focus_target := .SidebarProjects
               sidebar := ops.sidebar_set_section .Projects st.sidebar }, [])
    | .SidebarProjects =>
      (true, { st with
               focus_target := .SidebarTags
               sidebar := ops.sidebar_set_section .Tags st.sidebar }, [])
    | _ => (true, { st with focus_target := .Table }, [])
  | .FocusSidebar =>
    match st.focus_target with
    | .Table =>
      (true, { st with
               focus_target := .SidebarTags
               sidebar := ops.sidebar_set_section .Tags st.sidebar }, [])
    | .SidebarTags =>
      (true, { st with
               focus_target := .SidebarProjects
               sidebar := ops.sidebar_set_section .Projects st.sidebar }, [])
    | _ => (true, { st with focus_target := .Table }, [])
  | .FocusSidebarProjects =>
    (true, { st with
             focus_target := .SidebarProjects
             sidebar := ops.sidebar_set_section .Projects st.sidebar }, [])
  | .FocusSidebarTags =>
    (true, { st with
             focus_target := .SidebarTags
             sidebar := ops.sidebar_set_section .Tags st.sidebar }, [])
  | .SelectNextRow | .SelectPrevRow | .SelectFirstRow | .SelectLastRow =>
    match st.focus_target with
    | .SidebarProjects | .SidebarTags =>
      (true, { st with sidebar := (Sidebar.dispatch ops command st.sidebar).2 },
        [DispatchCall.sidebar command])
    | _ =>
      (true, { st with table := (TaskTable.dispatch ops command st.table).2 },
        [DispatchCall.table command])
  | .OpenSelectedTask =>
    match st.focus_target with
    | .SidebarProjects | .SidebarTags =>
      (true, { st with sidebar := (Sidebar.dispatch ops command st.sidebar).2 },
        [DispatchCall.sidebar command])
    | _ =>
      (true, { st with table := (TaskTable.dispatch ops command st.table).2 },
        [DispatchCall.table command])
  | .ExpandProject | .CollapseProject =>
    match st.focus_target with
    | .SidebarProjects =>
      (true, { st with sidebar := (Sidebar.dispatch ops command st.sidebar).2 },
        [DispatchCall.sidebar command])
    | _ =>
      (true, { st with table := (TaskTable.dispatch ops command st.table).2 },
        [DispatchCall.table command])
  | .NextPage | .PrevPage | .ClearSelection =>
    (true, { st with table := (TaskTable.dispatch ops command st.table).2 },
      [DispatchCall.table command])
  | .ToggleDropdown | .SelectNextOption | .SelectPrevOption | .BlurInput =>
    (true, { st with table := (TaskTable.dispatch ops command st.table).2 },
      [DispatchCall.table command])
  | .ClearAllFilters => (true, { st with root := ops.filter_clear st.root }, [])
  | .ClearProjectFilter => (true, { st with root := ops.filter_clear_project st.root }, [])
  | .ClearTagFilter => (true, { st with root := ops.filter_clear_tags st.root }, [])
  | .ClearSearchAndDropdowns =>
    (true, { st with
             root := ops.filter_clear_search_and_dropdowns st.root
             table := ops.reset_dropdowns (ops.clear_search_input st.table) }, [])
  | .HeaderMoveNext => (true, { st with table := ops.header_move_next st.table }, [])
  | .HeaderMovePrev => (true, { st with table := ops.header_move_prev st.table }, [])
  | .HeaderCycleSortOrder =>
    (true, { st with table := ops.header_cycle_sort_order st.table }, [])
  | _ => (false, st, [])

/-- `impl CommandDispatcher for App` from `src/dispatcher.rs`: the routing
table of the modal-aware dispatcher (the version consistent with
`defaults.rs`).  It differs from `src/app.rs` in handling the four modal
commands and in executing `OpenSelectedTask` at the root when focus is not
on the sidebar. -/
def DispatcherRs.dispatch (ops : Ops τ σ ρ) (command : Command) (st : AppState τ σ ρ) :
    Bool × AppState τ σ ρ × List DispatchCall :=
  match command with
  | .Sync => (true, { st with root := ops.handle_sync st.root }, [])
  | .FocusSearch => (false, st, [])
  | .FocusTable =>
    match st.focus_target with
    | .Table =>
      (true, { st with
               focus_target := .SidebarProjects
               sidebar := ops.sidebar_set_section .Projects st.sidebar }, [])
    | .SidebarProjects =>
      (true, { st with
               focus_target := .SidebarTags
               sidebar := ops.sidebar_set_section .Tags st.sidebar }, [])
    | _ => (true, { st with focus_target := .Table }, [])
  | .FocusSidebar =>
    match st.focus_target with
    | .Table =>
      (true, { st with
               focus_target := .SidebarTags
               sidebar := ops.sidebar_set_section .Tags st.sidebar }, [])
    | .SidebarTags =>
      (true, { st with
               focus_target := .SidebarProjects
               sidebar := ops.sidebar_set_section .Projects st.sidebar }, [])
    | _ => (true, { st with focus_target := .Table }, [])
  | .FocusSidebarProjects =>
    (true, { st with
             focus_target := .SidebarProjects
             sidebar := ops.sidebar_set_section .Projects st.sidebar }, [])
  | .FocusSidebarTags =>
    (true, { st with
             focus_target := .SidebarTags
             sidebar := ops.sidebar_set_section .Tags st.sidebar }, [])
  | .SelectNextRow | .SelectPrevRow | .SelectFirstRow | .SelectLastRow =>
    match st.focus_target with
    | .SidebarProjects | .SidebarTags =>
      (true, { st with sidebar := (Sidebar.dispatch ops command st.sidebar).2 },
        [DispatchCall.sidebar command])
    | _ =>
      (true, { st with table := (TaskTable.dispatch ops command st.table).2 },
        [DispatchCall.table command])
  | .OpenSelectedTask =>
    match st.focus_target with
    | .SidebarProjects | .SidebarTags =>
      (true, { st with sidebar := (Sidebar.dispatch ops command st.sidebar).2 },
        [DispatchCall.sidebar command])
    | _ =>
      (true, { st with root := ops.open_selected_task st.root }, [])
  | .CloseModal => (true, { st with root := ops.close_task_detail st.root }, [])
  | .SaveModal => (true, { st with root := ops.close_task_detail st.root }, [])
  | .ModalScrollUp => (true, { st with root := ops.scroll_task_detail (-1) st.root }, [])
  | .ModalScrollDown => (true, { st with root := ops.scroll_task_detail 2 st.root }, [])
  | .ExpandProject | .CollapseProject =>
    match st.focus_target with
    | .SidebarProjects =>
      (true, { st with sidebar := (Sidebar.dispatch ops command st.sidebar).2 },
        [DispatchCall.sidebar command])
    | _ =>
      (true, { st with table := (TaskTable.dispatch ops command st.table).2 },
        [DispatchCall.table command])
  | .NextPage | .PrevPage | .ClearSelection =>
    (true, { st with table := (TaskTable.dispatch ops command st.table).2 },
      [DispatchCall.table command])
  | .ToggleDropdown | .SelectNextOption | .SelectPrevOption | .BlurInput =>
    (true, { st with table := (TaskTable.dispatch ops command st.table).2 },
      [DispatchCall.table command])
  | .ClearAllFilters => (true, { st with root := ops.filter_clear st.root }, [])
  | .ClearProjectFilter => (true, { st with root := ops.filter_clear_project st.root }, [])
  | .ClearTagFilter => (true, { st with root := ops.filter_clear_tags st.root }, [])
  | .ClearSearchAndDropdowns =>
    (true, { st with
             root := ops.filter_clear_search_and_dropdowns st.root
             table := ops.reset_dropdowns (ops.clear_search_input st.table) }, [])
  | .HeaderMoveNext => (true, { st with table := ops.header_move_next st.table }, [])
  | .HeaderMovePrev => (true, { st with table := ops.header_move_prev st.table }, [])
  | .HeaderCycleSortOrder =>
    (true, { st with table := ops.header_cycle_sort_order st.table }, [])
  | _ => (false, st, [])

/-- Modelled from the spec: `App::active_context` of the current
repository.  The copy of `app.rs` under `src/` is stale (it lacks the
modal state that `src/dispatcher.rs` and `src/keymap/defaults.rs` rely
on); per spec §4.3 the derived context is unconditionally `Modal` while a
modal is open, otherwise the table's reported sub-focus context when focus
is on the table (as in the stale `active_context`), otherwise the direct
`FocusTarget` mapping. -/
def App.active_context (ops : Ops τ σ ρ) (st : AppState τ σ ρ) : ContextId :=
  if ops.modal_is_open st.root then ContextId.Modal
  else if st.focus_target = FocusTarget.Table then
    match get_active_filter_context (ops.get_filter_bar_focus st.table) with
    | some context => context
    | Option.none => st.focus_target.to_context
  else
    st.focus_target.to_context

/-- The modal input-capture whitelist from spec §4.4: the only commands
processed while a modal is open. -/
def modalWhitelist : Command → Bool
  | .CloseModal => true
  | .SaveModal => true
  | .ModalScrollUp => true
  | .ModalScrollDown => true
  | .Sync => true
  | _ => false

/-- Modelled from the spec: `App::handle_key_down` of the current
repository (spec §4.5; the copy under `src/src/app.rs` lines 387-467 is
the same algorithm without the modal filter of step 4, which the stale
snapshot lacks along with the modal state itself).  Parse the event into a
chord, compute the active context, resolve through the stack, suppress
non-whitelisted commands while a modal is open, apply router-level focus
commands directly, and hand everything else to the dispatcher. -/
def App.handle_key_down (ops : Ops τ σ ρ) (st : AppState τ σ ρ) (event : KeyEvent) :
    AppState τ σ ρ × List DispatchCall :=
  match KeyChord.from_gpui event with
  | Option.none => (st, [])
  | some chord =>
    let context := App.active_context ops st
    match st.keymap.resolve context chord with
    | Option.none => (st, [])
    | some command =>
      if ops.modal_is_open st.root && !(modalWhitelist command) then (st, [])
      else
        match command with
        | .FocusSearch =>
          let from_headers := st.focus_target = FocusTarget.TableHeaders
          let t := if from_headers then ops.blur_table_headers st.table else st.table
          let t := ops.focus_search_input t
          ({ st with focus_target := .Table, table := t }, [])
        | .FocusTableHeaders =>
          let t := ops.blur_search_input st.table
          let t := ops.set_filter_bar_focus FilterBarFocus.None t
          let t := ops.focus_table_headers t
          ({ st with focus_target := .TableHeaders, table := t }, [])
        | .FocusTable =>
          let t :=
            match context with
            | .TextInput | .FilterBar =>
              ops.set_filter_bar_focus FilterBarFocus.None (ops.blur_search_input st.table)
            | .TableHeaders => ops.blur_table_headers st.table
            | _ => st.table
          ({ st with focus_target := .Table, table := t }, [])
        | .FocusFilterNext | .FocusFilterPrev =>
          let was_on_input := ops.get_filter_bar_focus st.table = FilterBarFocus.SearchInput
          let t :=
            if command = Command.FocusFilterNext then ops.focus_filter_next st.table
            else ops.focus_filter_prev st.table
          let t := if was_on_input then ops.blur_search_input t else t
          let now_on_input := ops.get_filter_bar_focus t = FilterBarFocus.SearchInput
          let t := if now_on_input ∧ ¬was_on_input then ops.focus_search_input t else t
          ({ st with table := t }, [])
        | _ =>
          let r := DispatcherRs.dispatch ops command st
          (r.2.1, r.2.2)

/-- Trivial instantiation of the collaborator operations over `Unit`
component states, with the modal closed; used to evaluate the routing
layer on concrete inputs. -/
def trivialOpsClosed : Ops Unit Unit Unit where
  select_next_row := id
  select_previous_row := id
  select_first_row := id
  select_last_row := id
  go_next_page := id
  go_previous_page := id
  clear_selection := id
  toggle_focused_dropdown := id
  select_next_dropdown_option := id
  select_prev_dropdown_option := id
  blur_filter_bar := id
  clear_search_input := id
  reset_dropdowns := id
  header_move_next := id
  header_move_prev := id
  header_cycle_sort_order := id
  blur_search_input := id
  focus_search_input := id
  focus_table_headers := id
  blur_table_headers := id
  set_filter_bar_focus := fun _ => id
  get_filter_bar_focus := fun _ => FilterBarFocus.None
  focus_filter_next := id
  focus_filter_prev := id
  sidebar_select_next := id
  sidebar_select_prev := id
  sidebar_select_first := id
  sidebar_select_last := id
  sidebar_activate_selected := id
  sidebar_expand_selected := id
  sidebar_collapse_selected := id
  sidebar_set_section := fun _ => id
  handle_sync := id
  filter_clear := id
  filter_clear_project := id
  filter_clear_tags := id
  filter_clear_search_and_dropdowns := id
  open_selected_task := id
  close_task_detail := id
  scroll_task_detail := fun _ => id
  modal_is_open := fun _ => false

/-- As `trivialOpsClosed` but with the modal open. -/
def trivialOpsOpen : Ops Unit Unit Unit :=
  { trivialOpsClosed with modal_is_open := fun _ => true }

/-- The named keys of the chord round-trip property: `Enter`, `Escape`, the
arrows, the function keys, and the (lowercase) letters. -/
def c7NamedKeys : List Key :=
  [.Enter, .Escape, .ArrowUp, .ArrowDown, .ArrowLeft, .ArrowRight,
   .F1, .F2, .F3, .F4, .F5, .F6, .F7, .F8, .F9, .F10, .F11, .F12] ++
  ("abcdefghijklmnopqrstuvwxyz".data.map Key.Char)

/-- Helper: a stack misses `(context, chord)` in the first walk iff every
layer misses it. -/
theorem stack_firstWalk_none (s : KeymapStack) (context : ContextId) (chord : KeyChord) :
    (s.layers.reverse.findSome? fun l => l.resolve context chord) = Option.none ↔
      ∀ lay ∈ s.layers, lay.resolve context chord = Option.none := by
  rw [List.findSome?_eq_none_iff]
  constructor
  · intro h lay hl
    exact h lay (List.mem_reverse.mpr hl)
  · intro h lay hl
    exact h lay (List.mem_reverse.mp hl)

/-- C1: `KeymapStack::resolve` returns the first binding for the exact
`(context, chord)` pair walking layers from most recently pushed to least
(a decomposition of the reversed layer list with all earlier layers
missing); if no layer binds the pair and the context is not `Global`, it
returns the first binding for `(Global, chord)` in the same walk, and
otherwise `none`.  In particular a specific-context binding in an earlier
layer beats a `Global` binding for the same chord in a later layer. -/
theorem keymapStack_resolve_first_match (s : KeymapStack) (context : ContextId)
    (chord : KeyChord) :
    (∀ c : Command,
      s.resolve context chord = some c ↔
        ((∃ pre lay post, s.layers.reverse = pre ++ lay :: post ∧
            lay.resolve context chord = some c ∧
            ∀ x ∈ pre, x.resolve context chord = Option.none)
         ∨ ((∀ lay ∈ s.layers, lay.resolve context chord = Option.none) ∧
            context ≠ ContextId.Global ∧
            ∃ pre lay post, s.layers.reverse = pre ++ lay :: post ∧
              lay.resolve ContextId.Global chord = some c ∧
              ∀ x ∈ pre, x.resolve ContextId.Global chord = Option.none)))
    ∧ ((∀ lay ∈ s.layers, lay.resolve context chord = Option.none) →
        (context = ContextId.Global ∨
          ∀ lay ∈ s.layers, lay.resolve ContextId.Global chord = Option.none) →
        s.resolve context chord = Option.none)
    ∧ (∀ (A B : KeymapLayer) (c : Command), context ≠ ContextId.Global →
        A.resolve context chord = some c → B.resolve context chord = Option.none →
        KeymapStack.resolve ⟨[A, B]⟩ context chord = some c) := by
  refine ⟨fun c => ?_, ?_, ?_⟩
  · cases h1 : s.layers.reverse.findSome? fun l => l.resolve context chord with
    | some d =>
      constructor
      · intro hc
        have hd : some d = some c := by
          rw [KeymapStack.resolve, h1] at hc
          exact hc
        exact Or.inl (List.findSome?_eq_some_iff.mp (hd ▸ h1))
      · rintro (hfirst | ⟨hall, -, -⟩)
        · have : (s.layers.reverse.findSome? fun l => l.resolve context chord) = some c :=
            List.findSome?_eq_some_iff.mpr hfirst
          rw [KeymapStack.resolve, h1]
          rw [h1] at this
          exact this
        · exact absurd ((stack_firstWalk_none s context chord).mpr hall)
            (by simp [h1])
    | none =>
      have hall : ∀ lay ∈ s.layers, lay.resolve context chord = Option.none :=
        (stack_firstWalk_none s context chord).mp h1
      by_cases hg : context = ContextId.Global
      · rw [KeymapStack.resolve, h1, if_neg (not_not_intro hg)]
        simp only [reduceCtorEq, false_iff]
        rintro (hfirst | ⟨-, hne, -⟩)
        · have : (s.layers.reverse.findSome? fun l => l.resolve context chord) = some c :=
            List.findSome?_eq_some_iff.mpr hfirst
          simp [h1] at this
        · exact hne hg
      · rw [KeymapStack.resolve, h1, if_pos hg]
        constructor
        · intro h2
          exact Or.inr ⟨hall, hg, List.findSome?_eq_some_iff.mp h2⟩
        · rintro (hfirst | ⟨-, -, hglobal⟩)
          · have : (s.layers.reverse.findSome? fun l => l.resolve context chord) = some c :=
              List.findSome?_eq_some_iff.mpr hfirst
            simp [h1] at this
          · exact List.findSome?_eq_some_iff.mpr hglobal
  · intro hall hglob
    have h1 : (s.layers.reverse.findSome? fun l => l.resolve context chord) = Option.none :=
      (stack_firstWalk_none s context chord).mpr hall
    rw [KeymapStack.resolve, h1]
    rcases hglob with hg | hnone
    · simp [hg]
    · have h2 : (s.layers.reverse.findSome? fun l => l.resolve ContextId.Global chord) =
          Option.none :=
        (stack_firstWalk_none s ContextId.Global chord).mpr hnone
      simp [h2]
  · intro A B c hne hA hB
    rw [KeymapStack.resolve]
    simp [List.findSome?_cons, hA, hB]

/-- Witness for C1: in a two-layer stack where the earlier layer binds
`(Table, j)` and the later layer binds only `(Global, j)`, resolution of
`(Table, j)` returns the earlier specific-context binding. -/
theorem keymapStack_resolve_first_match_witness :
    KeymapStack.resolve
        ⟨[KeymapLayer.new.bind ContextId.Table (KeyChord.new (Key.Char 'j') Mods.none)
            Command.SelectNextRow,
          KeymapLayer.new.bind ContextId.Global (KeyChord.new (Key.Char 'j') Mods.none)
            Command.FocusSearch]⟩
        ContextId.Table (KeyChord.new (Key.Char 'j') Mods.none) =
      some Command.SelectNextRow :=
  (keymapStack_resolve_first_match
      ⟨[KeymapLayer.new.bind ContextId.Table (KeyChord.new (Key.Char 'j') Mods.none)
          Command.SelectNextRow,
        KeymapLayer.new.bind ContextId.Global (KeyChord.new (Key.Char 'j') Mods.none)
          Command.FocusSearch]⟩
      ContextId.Table (KeyChord.new (Key.Char 'j') Mods.none)).2.2
    (KeymapLayer.new.bind ContextId.Table (KeyChord.new (Key.Char 'j') Mods.none)
      Command.SelectNextRow)
    (KeymapLayer.new.bind ContextId.Global (KeyChord.new (Key.Char 'j') Mods.none)
      Command.FocusSearch)
    Command.SelectNextRow (by decide) (by decide) (by decide)

/-- C9: `pop_layer` exactly undoes `push_layer`: it returns the pushed
layer, and the remaining stack resolves every `(context, chord)` pair to
the same result as before the push. -/
theorem keymapStack_push_pop (s : KeymapStack) (L : KeymapLayer) :
    (s.push_layer L).pop_layer = (some L, s) ∧
      ∀ (context : ContextId) (chord : KeyChord),
        ((s.push_layer L).pop_layer).2.resolve context chord = s.resolve context chord := by
  have h : (s.push_layer L).pop_layer = (some L, s) := by
    rw [KeymapStack.push_layer, KeymapStack.pop_layer]
    simp only [List.getLast?_concat, List.dropLast_concat]
  exact ⟨h, fun context chord => by rw [h]⟩

/-- C2: while a modal is open, `active_context` returns `ContextId.Modal`
for every focus target and every table sub-focus state (spec-modelled
modal shadow, §4.3). -/
theorem active_context_modal_shadow (ops : Ops τ σ ρ) (st : AppState τ σ ρ)
    (hmodal : ops.modal_is_open st.root = true) :
    App.active_context ops st = ContextId.Modal := by
  simp [App.active_context, hmodal]

/-- Witness for C2: modal open with focus on the table. -/
theorem active_context_modal_shadow_witness :
    App.active_context trivialOpsOpen
        ⟨FocusTarget.Table, defaultKeymapStack, (), (), ()⟩ = ContextId.Modal :=
  active_context_modal_shadow trivialOpsOpen
    ⟨FocusTarget.Table, defaultKeymapStack, (), (), ()⟩ rfl

/-- C3: with a modal open, a key-down event whose resolved command is not
in the whitelist `{CloseModal, SaveModal, ModalScrollUp, ModalScrollDown,
Sync}` is swallowed: no command is forwarded to the table dispatcher and
the table state is unchanged.  Additionally, with the default keymap and a
modal open, pressing `j` (normally `SelectNextRow`) never reaches the
table dispatcher and leaves the table state unchanged (it resolves to the
whitelisted `ModalScrollDown`, which only scrolls the modal). -/
theorem modal_suppression (ops : Ops τ σ ρ) (st : AppState τ σ ρ) :
    (∀ (event : KeyEvent) (chord : KeyChord) (command : Command),
      ops.modal_is_open st.root = true →
      KeyChord.from_gpui event = some chord →
      st.keymap.resolve (App.active_context ops st) chord = some command →
      modalWhitelist command = false →
      (∀ c, DispatchCall.table c ∉ (App.handle_key_down ops st event).2) ∧
        (App.handle_key_down ops st event).1.table = st.table)
    ∧ (ops.modal_is_open st.root = true → st.keymap = defaultKeymapStack →
      (∀ c, DispatchCall.table c ∉
          (App.handle_key_down ops st ⟨"j", false, false, false, false⟩).2) ∧
        (App.handle_key_down ops st ⟨"j", false, false, false, false⟩).1.table =
          st.table) := by
  constructor
  · intro event chord command hm hc hr hw
    have hkd : App.handle_key_down ops st event = (st, []) := by
      simp [App.handle_key_down, hc, hr, hm, hw]
    rw [hkd]
    exact ⟨fun c => List.not_mem_nil _, rfl⟩
  · intro hm hk
    have hchord : KeyChord.from_gpui ⟨"j", false, false, false, false⟩ =
        some (KeyChord.new (Key.Char 'j') Mods.none) := by decide
    have hctx : App.active_context ops st = ContextId.Modal := by
      simp [App.active_context, hm]
    have hres : KeymapStack.resolve defaultKeymapStack ContextId.Modal
        (KeyChord.new (Key.Char 'j') Mods.none) = some Command.ModalScrollDown := by
      decide
    have hkd : App.handle_key_down ops st ⟨"j", false, false, false, false⟩ =
        ({ st with root := ops.scroll_task_detail 2 st.root }, []) := by
      simp [App.handle_key_down, hchord, hctx, hk, hres, hm, modalWhitelist,
        DispatcherRs.dispatch]
    rw [hkd]
    exact ⟨fun c => List.not_mem_nil _, rfl⟩

/-- Witness for C3: modal open over the default keymap; `Tab` resolves via
the Global fallback to `FocusTable`, which is not whitelisted, so the
event is swallowed. -/
theorem modal_suppression_witness :
    (∀ c, DispatchCall.table c ∉
        (App.handle_key_down trivialOpsOpen
          ⟨FocusTarget.Table, defaultKeymapStack, (), (), ()⟩
          ⟨"tab", false, false, false, false⟩).2) ∧
      (App.handle_key_down trivialOpsOpen
          ⟨FocusTarget.Table, defaultKeymapStack, (), (), ()⟩
          ⟨"tab", false, false, false, false⟩).1.table =
        (⟨FocusTarget.Table, defaultKeymapStack, (), (), ()⟩ :
          AppState Unit Unit Unit).table :=
  (modal_suppression trivialOpsOpen
      ⟨FocusTarget.Table, defaultKeymapStack, (), (), ()⟩).1
    ⟨"tab", false, false, false, false⟩ (KeyChord.new Key.Tab Mods.none)
    Command.FocusTable rfl (by decide) (by decide) rfl

/-- C4 as stated is false: with `FocusTarget.SidebarTags`, the root
dispatch routes `ExpandProject` to the table's dispatch, not the
sidebar's (`src/app.rs` routes expand/collapse to the sidebar only under
`SidebarProjects`). -/
theorem app_dispatch_nav_routing_counterexample :
    (AppRs.dispatch trivialOpsClosed Command.ExpandProject
        ⟨FocusTarget.SidebarTags, KeymapStack.new, (), (), ()⟩).2.2 =
      [DispatchCall.table Command.ExpandProject] ∧
    (AppRs.dispatch trivialOpsClosed Command.ExpandProject
        ⟨FocusTarget.SidebarTags, KeymapStack.new, (), (), ()⟩).2.2 ≠
      [DispatchCall.sidebar Command.ExpandProject] := by
  exact ⟨by decide, by decide⟩

/-- C4 (amended): the root dispatch routes the four row-selection commands
and `OpenSelectedTask` to the sidebar's dispatch exactly when
`FocusTarget` is a sidebar variant and to the table's dispatch otherwise,
while `ExpandProject`/`CollapseProject` go to the sidebar's dispatch
exactly when `FocusTarget` is `SidebarProjects` and to the table's
otherwise.  With default bindings, `j` resolves to `SelectNextRow` under
`Table` (reaching the table's dispatch, which consumes it) and under
`SidebarTags` (reaching the sidebar's dispatch). -/
theorem app_dispatch_nav_routing (ops : Ops τ σ ρ) (st : AppState τ σ ρ) :
    (∀ command : Command,
      (command = Command.SelectNextRow ∨ command = Command.SelectPrevRow ∨
        command = Command.SelectFirstRow ∨ command = Command.SelectLastRow ∨
        command = Command.OpenSelectedTask) →
      (AppRs.dispatch ops command st).2.2 =
        if st.focus_target = FocusTarget.SidebarProjects ∨
            st.focus_target = FocusTarget.SidebarTags then
          [DispatchCall.sidebar command]
        else
          [DispatchCall.table command])
    ∧ (∀ command : Command,
      (command = Command.ExpandProject ∨ command = Command.CollapseProject) →
      (AppRs.dispatch ops command st).2.2 =
        if st.focus_target = FocusTarget.SidebarProjects then
          [DispatchCall.sidebar command]
        else
          [DispatchCall.table command])
    ∧ KeymapStack.resolve defaultKeymapStack ContextId.Table
        (KeyChord.new (Key.Char 'j') Mods.none) = some Command.SelectNextRow
    ∧ (∀ t : τ, (TaskTable.dispatch ops Command.SelectNextRow t).1 = true)
    ∧ KeymapStack.resolve defaultKeymapStack ContextId.SidebarTags
        (KeyChord.new (Key.Char 'j') Mods.none) = some Command.SelectNextRow := by
  refine ⟨?_, ?_, by decide, fun t => rfl, by decide⟩
  · intro command hcmd
    rcases hcmd with rfl | rfl | rfl | rfl | rfl <;>
      rcases hft : st.focus_target <;> simp [AppRs.dispatch, hft]
  · intro command hcmd
    rcases hcmd with rfl | rfl <;>
      rcases hft : st.focus_target <;> simp [AppRs.dispatch, hft]

/-- Witness for C4: `SelectNextRow` under `FocusTarget.Table` is routed to
the table's dispatch. -/
theorem app_dispatch_nav_routing_witness :
    (AppRs.dispatch trivialOpsClosed Command.SelectNextRow
        ⟨FocusTarget.Table, KeymapStack.new, (), (), ()⟩).2.2 =
      [DispatchCall.table Command.SelectNextRow] := by
  have h := (app_dispatch_nav_routing trivialOpsClosed
      ⟨FocusTarget.Table, KeymapStack.new, (), (), ()⟩).1
    Command.SelectNextRow (Or.inl rfl)
  simpa using h

/-- `Char.ofNat` at a scalar value below the surrogate range keeps the
code point. -/
theorem char_toNat_ofNat (n : Nat) (h : n < 55296) : (Char.ofNat n).toNat = n := by
  rw [Char.ofNat, dif_pos (Or.inl h)]
  rfl

/-- Code point of `Char.toLower`: shifted by 32 on `A`-`Z`, unchanged
otherwise. -/
theorem toLower_toNat (c : Char) :
    (Char.toLower c).toNat =
      if c.toNat ≥ 65 ∧ c.toNat ≤ 90 then c.toNat + 32 else c.toNat := by
  simp only [Char.toLower]
  split_ifs with h
  · exact char_toNat_ofNat (c.toNat + 32) (by omega)
  · rfl

/-- A character is a single UTF-8 byte iff its code point is ASCII. -/
theorem utf8Size_eq_one_iff (c : Char) : c.utf8Size = 1 ↔ c.toNat ≤ 127 := by
  simp only [Char.utf8Size]
  split_ifs with hv hv2 hv3
  · exact iff_of_true rfl hv
  · exact iff_of_false (by decide) (fun hc => hv hc)
  · exact iff_of_false (by decide) (fun hc => hv hc)
  · exact iff_of_false (by decide) (fun hc => hv hc)

/-- Lowercasing preserves the UTF-8 width of a character. -/
theorem toLower_utf8Size (c : Char) : (Char.toLower c).utf8Size = c.utf8Size := by
  by_cases h : c.toNat ≥ 65 ∧ c.toNat ≤ 90
  · have h1 : (Char.toLower c).utf8Size = 1 := by
      rw [utf8Size_eq_one_iff, toLower_toNat, if_pos h]
      omega
    have h2 : c.utf8Size = 1 := by
      rw [utf8Size_eq_one_iff]
      omega
    rw [h1, h2]
  · have heq : Char.toLower c = c := by
      simp only [Char.toLower]
      rw [if_neg h]
    rw [heq]

/-- Lowercasing preserves the UTF-8 length of a character list. -/
theorem utf8Len_map_toLower (l : List Char) :
    String.utf8Len (l.map Char.toLower) = String.utf8Len l := by
  induction l with
  | nil => rfl
  | cons c cs ih => simp [String.utf8Len_cons, ih, toLower_utf8Size]

/-- The model of `str::to_lowercase` preserves the byte length (mirrors
that Rust per-character ASCII lowercasing is length-preserving). -/
theorem rustToLowercase_utf8ByteSize (s : String) :
    (rustToLowercase s).utf8ByteSize = s.utf8ByteSize := by
  obtain ⟨l⟩ := s
  simp [rustToLowercase, String.utf8ByteSize_mk, utf8Len_map_toLower]

/-- Only the space character lowercases to a space. -/
theorem toLower_eq_space (c : Char) (h : Char.toLower c = ' ') : c = ' ' := by
  by_cases hc : c.toNat ≥ 65 ∧ c.toNat ≤ 90
  · exfalso
    have hthis := congrArg Char.toNat h
    rw [toLower_toNat, if_pos hc, show (' ' : Char).toNat = 32 from rfl] at hthis
    omega
  · rw [show Char.toLower c = c from by simp only [Char.toLower]; rw [if_neg hc]] at h
    exact h

/-- Only `" "` lowercases to `" "`. -/
theorem rustToLowercase_eq_space (s : String) (h : rustToLowercase s = " ") : s = " " := by
  obtain ⟨l⟩ := s
  have hdata : l.map Char.toLower = [' '] := congrArg String.data h
  cases l with
  | nil => simp at hdata
  | cons c cs =>
    cases cs with
    | nil =>
      have hc : Char.toLower c = ' ' := by simpa using hdata
      rw [toLower_eq_space c hc]
    | cons d ds => simp at hdata

/-- The result of lowercasing is never an uppercase ASCII letter. -/
theorem isUpper_toLower (c : Char) : (Char.toLower c).isUpper = false := by
  have hn := toLower_toNat c
  rw [← Bool.not_eq_true]
  intro hu
  have hiff : ∀ d : Char, d.isUpper = true → 65 ≤ d.toNat ∧ d.toNat ≤ 90 := by
    intro d hd
    simp only [Char.isUpper, Bool.and_eq_true, decide_eq_true_eq] at hd
    exact ⟨hd.1, hd.2⟩
  have h2 := hiff _ hu
  by_cases hc : c.toNat ≥ 65 ∧ c.toNat ≤ 90
  · rw [if_pos hc] at hn
    omega
  · rw [if_neg hc] at hn
    omega

/-- C5 as stated is false: on the key string `" "` the live-event path
returns `Key.Space` while `Key::from_str` returns `Key.Char ' '`. -/
theorem key_parse_paths_agree_counterexample :
    KeyChord.key_from_gpui " " = some Key.Space ∧
      Key.from_str " " = some (Key.Char ' ') ∧
      KeyChord.key_from_gpui " " ≠ Key.from_str " " :=
  ⟨by decide, by decide, by decide⟩

set_option maxHeartbeats 1000000 in
/-- C5 (amended): the live-event key normalization and the string parse
path agree on every key string except `" "` (which only the live path maps
to `Space`). -/
theorem key_parse_paths_agree (s : String) (hs : s ≠ " ") :
    KeyChord.key_from_gpui s = Key.from_str s := by
  have hspace : rustToLowercase s ≠ " " := fun hq => hs (rustToLowercase_eq_space s hq)
  have hsize : (rustToLowercase s).utf8ByteSize = s.utf8ByteSize := rustToLowercase_utf8ByteSize s
  unfold KeyChord.key_from_gpui Key.from_str
  simp only []
  rw [← hsize]
  by_cases h1 : rustToLowercase s = "enter" ∨ rustToLowercase s = "return"
  · rw [if_pos h1, if_pos h1]
  rw [if_neg h1, if_neg h1]
  by_cases h2 : rustToLowercase s = "escape" ∨ rustToLowercase s = "esc"
  · rw [if_pos h2, if_pos (Or.symm h2)]
  rw [if_neg h2, if_neg (fun hq => h2 (Or.symm hq))]
  by_cases h3 : rustToLowercase s = "backspace"
  · rw [if_pos h3, if_pos h3]
  rw [if_neg h3, if_neg h3]
  by_cases h4 : rustToLowercase s = "delete" ∨ rustToLowercase s = "del"
  · rw [if_pos h4, if_pos h4]
  rw [if_neg h4, if_neg h4]
  by_cases h5 : rustToLowercase s = "tab"
  · rw [if_pos h5, if_pos h5]
  rw [if_neg h5, if_neg h5]
  by_cases h6 : rustToLowercase s = " " ∨ rustToLowercase s = "space"
  · have hsp : rustToLowercase s = "space" := by
      rcases h6 with hq | hq
      · exact absurd hq hspace
      · exact hq
    rw [if_pos h6, if_pos hsp]
  rw [if_neg h6, if_neg (fun hq => h6 (Or.inr hq))]
  by_cases h7 : rustToLowercase s = "arrowup" ∨ rustToLowercase s = "up"
  · rw [if_pos h7, if_pos (Or.symm h7)]
  rw [if_neg h7, if_neg (fun hq => h7 (Or.symm hq))]
  by_cases h8 : rustToLowercase s = "arrowdown" ∨ rustToLowercase s = "down"
  · rw [if_pos h8, if_pos (Or.symm h8)]
  rw [if_neg h8, if_neg (fun hq => h8 (Or.symm hq))]
  by_cases h9 : rustToLowercase s = "arrowleft" ∨ rustToLowercase s = "left"
  · rw [if_pos h9, if_pos (Or.symm h9)]
  rw [if_neg h9, if_neg (fun hq => h9 (Or.symm hq))]
  by_cases h10 : rustToLowercase s = "arrowright" ∨ rustToLowercase s = "right"
  · rw [if_pos h10, if_pos (Or.symm h10)]
  rw [if_neg h10, if_neg (fun hq => h10 (Or.symm hq))]
  by_cases h11 : rustToLowercase s = "pageup"
  · rw [if_pos h11, if_pos h11]
  rw [if_neg h11, if_neg h11]
  by_cases h12 : rustToLowercase s = "pagedown"
  · rw [if_pos h12, if_pos h12]
  rw [if_neg h12, if_neg h12]
  by_cases h13 : rustToLowercase s = "home"
  · rw [if_pos h13, if_pos h13]
  rw [if_neg h13, if_neg h13]
  by_cases h14 : rustToLowercase s = "end"
  · rw [if_pos h14, if_pos h14]
  rw [if_neg h14, if_neg h14]
  by_cases h15 : rustToLowercase s = "f1"
  · rw [if_pos h15, if_pos h15]
  rw [if_neg h15, if_neg h15]
  by_cases h16 : rustToLowercase s = "f2"
  · rw [if_pos h16, if_pos h16]
  rw [if_neg h16, if_neg h16]
  by_cases h17 : rustToLowercase s = "f3"
  · rw [if_pos h17, if_pos h17]
  rw [if_neg h17, if_neg h17]
  by_cases h18 : rustToLowercase s = "f4"
  · rw [if_pos h18, if_pos h18]
  rw [if_neg h18, if_neg h18]
  by_cases h19 : rustToLowercase s = "f5"
  · rw [if_pos h19, if_pos h19]
  rw [if_neg h19, if_neg h19]
  by_cases h20 : rustToLowercase s = "f6"
  · rw [if_pos h20, if_pos h20]
  rw [if_neg h20, if_neg h20]
  by_cases h21 : rustToLowercase s = "f7"
  · rw [if_pos h21, if_pos h21]
  rw [if_neg h21, if_neg h21]
  by_cases h22 : rustToLowercase s = "f8"
  · rw [if_pos h22, if_pos h22]
  rw [if_neg h22, if_neg h22]
  by_cases h23 : rustToLowercase s = "f9"
  · rw [if_pos h23, if_pos h23]
  rw [if_neg h23, if_neg h23]
  by_cases h24 : rustToLowercase s = "f10"
  · rw [if_pos h24, if_pos h24]
  rw [if_neg h24, if_neg h24]
  by_cases h25 : rustToLowercase s = "f11"
  · rw [if_pos h25, if_pos h25]
  rw [if_neg h25, if_neg h25]
  by_cases h26 : rustToLowercase s = "f12"
  · rw [if_pos h26, if_pos h26]
  rw [if_neg h26, if_neg h26]
  by_cases h27 : (rustToLowercase s).utf8ByteSize = 1
  · rw [if_pos h27, if_pos h27]
  · rw [if_neg h27, if_neg h27, if_neg h27]

/-- Witness for C5 at the aliased arrow key `"up"`. -/
theorem key_parse_paths_agree_witness :
    "up" ≠ " " ∧ KeyChord.key_from_gpui "up" = Key.from_str "up" :=
  ⟨by decide, key_parse_paths_agree "up" (by decide)⟩

/-- C6: every command string identifier round-trips through
`as_str`/`from_str` (the two modal scroll variants are spec-modelled, see
`Command`). -/
theorem command_as_str_roundtrip : ∀ c : Command, Command.from_str c.as_str = some c := by
  intro c
  cases c <;> rfl

/-- C7 as stated is false for uppercase letters: the display string of the
chord `A` parses back with the lowercased key. -/
theorem chord_display_roundtrip_counterexample :
    KeyChord.parse (KeyChord.display ⟨Key.Char 'A', Mods.none⟩) =
      some ⟨Key.Char 'a', Mods.none⟩ ∧
    KeyChord.parse (KeyChord.display ⟨Key.Char 'A', Mods.none⟩) ≠
      some ⟨Key.Char 'A', Mods.none⟩ :=
  ⟨by decide, by decide⟩

/-- C7 (amended): for every named key (`Enter`, `Escape`, arrows, function
keys and lowercase letters) and every modifier combination, parsing the
chord display string returns the same chord. -/
theorem chord_display_roundtrip :
    ∀ k ∈ c7NamedKeys, ∀ (a b c d : Bool),
      KeyChord.parse (KeyChord.display ⟨k, ⟨a, b, c, d⟩⟩) = some ⟨k, ⟨a, b, c, d⟩⟩ := by
  decide

/-- Witness for C7: `Cmd+Ctrl+Alt+Shift+F5` round-trips. -/
theorem chord_display_roundtrip_witness :
    KeyChord.parse (KeyChord.display ⟨Key.F5, ⟨true, true, true, true⟩⟩) =
      some ⟨Key.F5, ⟨true, true, true, true⟩⟩ :=
  chord_display_roundtrip Key.F5 (by decide) true true true true

/-- The modifier loop fails as soon as any token is not a recognized
modifier name. -/
theorem parseModsLoop_none (l : List String) (p : String) (hp : p ∈ l)
    (hq : rustToLowercase p ≠ "ctrl" ∧ rustToLowercase p ≠ "alt" ∧
      rustToLowercase p ≠ "shift" ∧ rustToLowercase p ≠ "cmd" ∧
      rustToLowercase p ≠ "super" ∧ rustToLowercase p ≠ "platform") :
    ∀ m : Mods, parseModsLoop l m = Option.none := by
  induction l with
  | nil => cases hp
  | cons q qs ih =>
    intro m
    rcases List.mem_cons.mp hp with rfl | hmem
    · unfold parseModsLoop
      simp only []
      rw [if_neg hq.1, if_neg hq.2.1, if_neg hq.2.2.1,
        if_neg (by
          rintro (h | h | h)
          exacts [hq.2.2.2.1 h, hq.2.2.2.2.1 h, hq.2.2.2.2.2 h])]
    · unfold parseModsLoop
      simp only []
      split_ifs <;> first | exact ih hmem _ | rfl

/-- C8: if any token of the input except the last is not a recognized
modifier name (`ctrl`, `alt`, `shift`, `cmd`/`super`/`platform`,
case-insensitively), the whole chord parse fails. -/
theorem parse_fails_on_unknown_modifier (s : String) (p : String)
    (hp : p ∈ ((splitOnChar '+' s.data).map fun l => (⟨l⟩ : String)).dropLast)
    (hq : rustToLowercase p ≠ "ctrl" ∧ rustToLowercase p ≠ "alt" ∧
      rustToLowercase p ≠ "shift" ∧ rustToLowercase p ≠ "cmd" ∧
      rustToLowercase p ≠ "super" ∧ rustToLowercase p ≠ "platform") :
    KeyChord.parse s = Option.none := by
  unfold KeyChord.parse
  simp only []
  split_ifs with hemp
  · rfl
  · cases hlast : ((splitOnChar '+' s.data).map fun l => (⟨l⟩ : String)).getLast? with
    | none => rfl
    | some key_str =>
      rw [parseModsLoop_none _ p hp hq Mods.none]

/-- Witness for C8: `"meta+x"` fails to parse because `meta` is not a
recognized modifier. -/
theorem parse_fails_on_unknown_modifier_witness :
    KeyChord.parse "meta+x" = Option.none :=
  parse_fails_on_unknown_modifier "meta+x" "meta" (by decide)
    ⟨by decide, by decide, by decide, by decide, by decide, by decide⟩

/-- C10 as stated is false for multi-byte characters: the lowercased form
of `"é"` is a single character yet `Key::from_str` rejects it (the Rust
guard counts UTF-8 bytes). -/
theorem from_str_lowercases_counterexample :
    (rustToLowercase "é").data.length = 1 ∧ Key.from_str "é" = Option.none :=
  ⟨by decide, by decide⟩

set_option maxHeartbeats 1000000 in
/-- C10 (amended): `Key::from_str` lowercases its input before matching:
for every string whose lowercased form is a single one-byte (ASCII)
character `c`, it returns `some (Key.Char c)`, and `c` is never an
uppercase letter; in particular `"A"` and `"a"` both parse to `Char 'a'`,
so chords differing only by letter case collide. -/
theorem from_str_lowercases :
    (∀ s : String, (rustToLowercase s).utf8ByteSize = 1 →
      ∃ c : Char, (rustToLowercase s).data = [c] ∧ Key.from_str s = some (Key.Char c) ∧
        c.isUpper = false)
    ∧ Key.from_str "A" = some (Key.Char 'a')
    ∧ Key.from_str "a" = some (Key.Char 'a') := by
  refine ⟨?_, by decide, by decide⟩
  intro s h
  have hdata1 : (rustToLowercase s).data = s.data.map Char.toLower := rfl
  obtain ⟨c, hc⟩ : ∃ c : Char, (rustToLowercase s).data = [c] := by
    rw [hdata1]
    have hlen : String.utf8Len (s.data.map Char.toLower) = 1 := by
      have hmk : rustToLowercase s = ⟨s.data.map Char.toLower⟩ := rfl
      rw [hmk, String.utf8ByteSize_mk] at h
      exact h
    cases hmap : s.data.map Char.toLower with
    | nil => rw [hmap] at hlen; simp at hlen
    | cons c cs =>
      rw [hmap, String.utf8Len_cons] at hlen
      have hpos := Char.utf8Size_pos c
      have hcs : String.utf8Len cs = 0 := by omega
      have hnil : cs = [] := String.utf8Len_eq_zero.mp hcs
      exact ⟨c, by rw [hnil]⟩
  refine ⟨c, hc, ?_, ?_⟩
  · have hne : ∀ u : String, u.utf8ByteSize ≠ 1 → ¬ rustToLowercase s = u := by
      intro u hu hequ
      rw [hequ] at h
      exact hu h
    have hor : ∀ u v : String, u.utf8ByteSize ≠ 1 → v.utf8ByteSize ≠ 1 →
        ¬ (rustToLowercase s = u ∨ rustToLowercase s = v) := by
      rintro u v hu hv (hq | hq)
      · exact hne u hu hq
      · exact hne v hv hq
    have hres : Key.from_str s = (rustToLowercase s).data.head?.map Key.Char := by
      unfold Key.from_str
      simp only []
      rw [        if_neg (hor "enter" "return" (by decide) (by decide)),
        if_neg (hor "esc" "escape" (by decide) (by decide)),
        if_neg (hne "backspace" (by decide)),
        if_neg (hor "delete" "del" (by decide) (by decide)),
        if_neg (hne "tab" (by decide)),
        if_neg (hne "space" (by decide)),
        if_neg (hor "up" "arrowup" (by decide) (by decide)),
        if_neg (hor "down" "arrowdown" (by decide) (by decide)),
        if_neg (hor "left" "arrowleft" (by decide) (by decide)),
        if_neg (hor "right" "arrowright" (by decide) (by decide)),
        if_neg (hne "pageup" (by decide)),
        if_neg (hne "pagedown" (by decide)),
        if_neg (hne "home" (by decide)),
        if_neg (hne "end" (by decide)),
        if_neg (hne "f1" (by decide)),
        if_neg (hne "f2" (by decide)),
        if_neg (hne "f3" (by decide)),
        if_neg (hne "f4" (by decide)),
        if_neg (hne "f5" (by decide)),
        if_neg (hne "f6" (by decide)),
        if_neg (hne "f7" (by decide)),
        if_neg (hne "f8" (by decide)),
        if_neg (hne "f9" (by decide)),
        if_neg (hne "f10" (by decide)),
        if_neg (hne "f11" (by decide)),
        if_neg (hne "f12" (by decide)),
        if_pos h]
    rw [hres, hc]
    rfl
  · have hdata : s.data.map Char.toLower = [c] := by rw [← hdata1]; exact hc
    cases hl : s.data with
    | nil => rw [hl] at hdata; simp at hdata
    | cons d ds =>
      rw [hl] at hdata
      cases ds with
      | nil =>
        have hdc : Char.toLower d = c := by simpa using hdata
        rw [← hdc]
        exact isUpper_toLower d
      | cons e es => simp at hdata

/-- Witness for C10: the uppercase input `"A"` parses to the lowercase
character key. -/
theorem from_str_lowercases_witness :
    ∃ c : Char, (rustToLowercase "A").data = [c] ∧
      Key.from_str "A" = some (Key.Char c) ∧ c.isUpper = false :=
  from_str_lowercases.1 "A" (by decide)

end TaskwarriorGpui
